import Mathlib

/-!
Verification of the multi-provider data-acquisition orchestrator of the
Cloud-Cost-optimizer repository.

The embedding below follows `src/backend/app/services/data_acquisition.py`
(class `DataAcquisitionService`) and `src/backend/app/schemas/cost.py`
(pydantic model `CostDataCreate`).  Time (`datetime.utcnow()`) is modelled
as an explicit `Nat` parameter `now`; a raw provider record (a Python dict)
is modelled by `RawItem`, keeping exactly the keys that
`_process_and_store_cost_data` reads; adapter behaviour is an environment
`AdapterEnv` mapping each provider to the outcome of its fetch call.
-/

namespace CloudCost

/-- Value of a raw dict field that pydantic will coerce to `Decimal`:
either a JSON number or a string (which may or may not be numeric). -/
inductive PyVal where
  | num (n : Int)
  | str (s : String)
deriving DecidableEq, Repr

/-- Raw cost record as produced by a provider adapter: models exactly the
keys that `_process_and_store_cost_data` reads from the dict `item`.
`none` models an absent key; `dimensions` models the sub-dict
`item.get('dimensions', \x7b\x7d)` as an association list. -/
structure RawItem where
  dimensions : List (String × String) := []
  cost_amount : Option PyVal := none
  cost_currency : Option String := none
  usage_quantity : Option PyVal := none
  usage_unit : Option String := none
  start_date : Option String := none
  end_date : Option String := none
deriving DecidableEq, Repr

/-- Python `dict.get` on a string-keyed association list. -/
def dictFind {α : Type} (d : List (String × α)) (k : String) : Option α :=
  match d with
  | [] => none
  | kv :: rest => if kv.1 = k then some kv.2 else dictFind rest k

/-- Splitting a character list on a separator, mirroring Python's
`str.split(sep)` / the grouping `String.splitOn` performs. -/
def splitOnChar (sep : Char) : List Char → List (List Char)
  | [] => [[]]
  | c :: rest =>
    match splitOnChar sep rest with
    | [] => if c = sep then [[], []] else [[c]]
    | g :: gs => if c = sep then [] :: g :: gs else (c :: g) :: gs

/-- Numeric value of a non-empty all-digit character list, `none`
otherwise: the behaviour of `int(...)` on a numeral component. -/
def digitsToNat : List Char → Option Nat
  | [] => none
  | l =>
    if l.all Char.isDigit then
      some (l.foldl (fun n c => n * 10 + (c.toNat - 48)) 0)
    else none

/-- Models `datetime.fromisoformat`: accepts a `YYYY-MM-DD` shaped string,
encoding the date as `y*10000 + m*100 + d`; every other string fails
(returns `none`, modelling the raised `ValueError`). -/
def fromisoformat (s : String) : Option Nat :=
  match splitOnChar (Char.ofNat 45) s.data with
  | [y, m, d] =>
    match digitsToNat y, digitsToNat m, digitsToNat d with
    | some yn, some mn, some dn => some (yn * 10000 + mn * 100 + dn)
    | _, _, _ => none
  | _ => none

/-- Non-empty all-digit character list. -/
def digitsOnly (l : List Char) : Bool :=
  decide (l.length > 0) && l.all Char.isDigit

/-- Models whether pydantic's `Decimal` validation accepts a value:
numbers always do, strings only when they look like a (signed) decimal
numeral. -/
def decimalParses : PyVal → Bool
  | .num _ => true
  | .str s =>
    let t := match s.data with
      | c :: rest => if c = Char.ofNat 45 then rest else s.data
      | [] => []
    match splitOnChar (Char.ofNat 46) t with
    | [a] => digitsOnly a
    | [a, b] => digitsOnly a && digitsOnly b
    | _ => false

/-- Lower-casing of one ASCII character, as `str.lower` does. -/
def lowerChar (c : Char) : Char :=
  if 65 ≤ c.toNat ∧ c.toNat ≤ 90 then Char.ofNat (c.toNat + 32) else c

/-- Models Python's `str.lower()` for the ASCII provider names in play. -/
def pyLower (s : String) : String :=
  ⟨s.data.map lowerChar⟩

/-- Evaluation of the keyword argument
`datetime.fromisoformat(item['start_date']) if item.get('start_date') else datetime.utcnow()`
(`data_acquisition.py` lines 217-218).  A missing key or an empty (falsy)
string yields the current time; a non-empty string is parsed and an
unparseable one raises `ValueError`. -/
def evalDateField (v : Option String) (now : Nat) : Except String Nat :=
  match v with
  | none => .ok now
  | some s =>
    if s = "" then .ok now
    else
      match fromisoformat s with
      | none => .error "ValueError: Invalid isoformat string"
      | some t => .ok t

/-- Canonical cost record: the fields of the pydantic model
`CostDataBase` = `CostDataCreate` (`schemas/cost.py` lines 11-28). -/
structure CostData where
  provider : String
  service : String
  resource_id : String
  resource_type : String
  region : String
  cost_amount : PyVal
  cost_currency : String
  usage_quantity : Option PyVal
  usage_unit : Option String
  tags : List (String × String)
  timestamp : Nat
deriving DecidableEq, Repr

/-- Pydantic validation of a `CostDataCreate(...)` call.  Each parameter is
the value supplied for the like-named keyword argument, `none` meaning the
keyword was not passed at all.  The schema declares `provider`, `service`,
`resource_id`, `resource_type`, `region`, `cost_amount` and `timestamp` as
required (`Field(...)`), `cost_currency` with default `"USD"`, and the rest
optional; fields are checked in declaration order and excess keyword
arguments are ignored (pydantic default `extra` behaviour). -/
def validateCostDataCreate
    (provider service region : String)
    (resource_id : Option String)
    (resource_type : Option String)
    (cost_amount : PyVal)
    (cost_currency : Option String)
    (usage_quantity : Option PyVal)
    (usage_unit : Option String)
    (tags : List (String × String))
    (timestamp : Option Nat) : Except String CostData :=
  match resource_id with
  | none => .error "ValidationError: resource_id: none is not an allowed value"
  | some rid =>
  match resource_type with
  | none => .error "ValidationError: resource_type: field required"
  | some rty =>
  if decimalParses cost_amount then
    match usage_quantity with
    | some v =>
      if decimalParses v then
        match timestamp with
        | none => .error "ValidationError: timestamp: field required"
        | some ts =>
          .ok { provider := provider, service := service, resource_id := rid,
                resource_type := rty, region := region, cost_amount := cost_amount,
                cost_currency := cost_currency.getD "USD",
                usage_quantity := usage_quantity, usage_unit := usage_unit,
                tags := tags, timestamp := ts }
      else .error "ValidationError: usage_quantity: value is not a valid decimal"
    | none =>
      match timestamp with
      | none => .error "ValidationError: timestamp: field required"
      | some ts =>
        .ok { provider := provider, service := service, resource_id := rid,
              resource_type := rty, region := region, cost_amount := cost_amount,
              cost_currency := cost_currency.getD "USD",
              usage_quantity := none, usage_unit := usage_unit,
              tags := tags, timestamp := ts }
  else .error "ValidationError: cost_amount: value is not a valid decimal"

/-- Normalization of one raw record: the body of the `try` block of
`_process_and_store_cost_data` (`data_acquisition.py` lines 206-230).
Keyword arguments are evaluated in source order (a missing `cost_amount`
or `cost_currency` key raises `KeyError`; an unparseable date raises
`ValueError`), then the `CostDataCreate(...)` constructor validates.
The call site passes keywords `start_date`, `end_date` and `metadata`,
which are not fields of the schema and are dropped, and it passes no
`resource_type` and no `timestamp` keyword, so those validation inputs
are `none`. -/
def processCostItem (providerName : String) (item : RawItem) (now : Nat) :
    Except String CostData :=
  let dims := item.dimensions
  let service := (dictFind dims "service").getD "Unknown"
  let region := (dictFind dims "region").getD "Unknown"
  let rid := dictFind dims "resource_id"
  match item.cost_amount with
  | none => .error "KeyError: cost_amount"
  | some ca =>
  match item.cost_currency with
  | none => .error "KeyError: cost_currency"
  | some cc =>
  match evalDateField item.start_date now with
  | .error e => .error e
  | .ok _sd =>
  match evalDateField item.end_date now with
  | .error e => .error e
  | .ok _ed =>
  validateCostDataCreate providerName service region rid none ca (some cc)
    item.usage_quantity item.usage_unit dims none

/-- Boolean success test on `Except`. -/
def exOk {α β : Type} : Except α β → Bool
  | .ok _ => true
  | .error _ => false

/-- The per-item loop of `_process_and_store_cost_data` (lines 203-236):
each record is tried individually, a failing record is logged and skipped
(`continue`), a succeeding one increments `processed_count`. -/
def processAndStoreCostData (raw : List RawItem) (provider : String) (now : Nat) : Nat :=
  match raw with
  | [] => 0
  | item :: rest =>
    (if exOk (processCostItem provider item now) then 1 else 0)
      + processAndStoreCostData rest provider now

/-- The three recognized cloud providers. -/
inductive ProviderTag where
  | aws
  | azure
  | gcp
deriving DecidableEq, Repr, Fintype

/-- Lower-case provider name, as used in the pipeline return dicts. -/
def ProviderTag.name : ProviderTag → String
  | .aws => "aws"
  | .azure => "azure"
  | .gcp => "gcp"

deriving instance DecidableEq for Except

/-- Environment fixing, for one sync cycle, the outcome of each provider
adapter's fetch call (`aws_cost_service.get_cost_and_usage`,
`azure_cost_service.get_cost_data`, `gcp_billing_service.get_cost_data`):
either the returned list of raw records or the raised exception's message. -/
structure AdapterEnv where
  aws : Except String (List RawItem)
  azure : Except String (List RawItem)
  gcp : Except String (List RawItem)
deriving DecidableEq, Repr

/-- Adapter outcome for one provider under an environment. -/
def AdapterEnv.fetch (env : AdapterEnv) : ProviderTag → Except String (List RawItem)
  | .aws => env.aws
  | .azure => env.azure
  | .gcp => env.gcp

/-- Success dict returned by `_sync_aws_data` / `_sync_azure_data` /
`_sync_gcp_data`: keys `status`, `records_processed`, `provider`. -/
structure PipelineSuccess where
  status : String
  records_processed : Nat
  provider : String
deriving DecidableEq, Repr

/-- One provider pipeline (`_sync_aws_data` and siblings, lines 98-186):
a failing fetch is logged and re-raised (so the coroutine ends in the
exception, which `asyncio.gather(..., return_exceptions=True)` captures);
a successful fetch feeds `_process_and_store_cost_data` and yields the
success dict. -/
def runPipeline (env : AdapterEnv) (now : Nat) (t : ProviderTag) :
    Except String PipelineSuccess :=
  match env.fetch t with
  | .error e => .error e
  | .ok raw =>
    .ok { status := "success",
          records_processed := processAndStoreCostData raw t.name now,
          provider := t.name }

/-- Provider-name dispatch of `sync_all_providers` (lines 55-64): the
branch on `provider.lower()`; an unrecognized name is logged and skipped
(`continue`). -/
def recognizeProvider (p : String) : Option ProviderTag :=
  if pyLower p = "aws" then some .aws
  else if pyLower p = "azure" then some .azure
  else if pyLower p = "gcp" then some .gcp
  else none

/-- The task list built by the dispatch loop: one pipeline per recognized
name, in request order. -/
def syncTasks (providers : List String) : List ProviderTag :=
  providers.filterMap recognizeProvider

/-- Entry of the `results` dict for one provider: a success dict carries
`status`/`records_processed`/`provider`, the error dict built at lines
76-80 carries `status`/`error`/`records_processed = 0`. -/
structure ProviderEntry where
  status : String
  records_processed : Nat
  provider : Option String := none
  error : Option String := none
deriving DecidableEq, Repr

/-- Conversion of one element of `completed_results` into its `results`
entry (lines 72-82). -/
def toProviderEntry : Except String PipelineSuccess → ProviderEntry
  | .error e => { status := "error", records_processed := 0, error := some e }
  | .ok r => { status := r.status, records_processed := r.records_processed,
               provider := some r.provider }

/-- The `results` dict, as a Python dict: an association list with
insertion order preserved and assignment to an existing key replacing its
value in place. -/
abbrev ResultDict := List (String × ProviderEntry)

/-- Python dict assignment `d[k] = v`. -/
def dictInsert (d : ResultDict) (k : String) (v : ProviderEntry) : ResultDict :=
  if d.any (fun kv => kv.1 = k) then
    d.map (fun kv => if kv.1 = k then (k, v) else kv)
  else d ++ [(k, v)]

/-- The report returned by `sync_all_providers` (lines 88-96). -/
structure SyncReport where
  status : String
  total_records_processed : Nat
  provider_results : ResultDict
  sync_period : Nat × Nat
deriving DecidableEq, Repr

/-- The `results` dict built at lines 69-82: the task outcomes gathered by
`asyncio.gather(*tasks, return_exceptions=True)` are keyed by
`providers[i]` for `i` enumerating `completed_results`.  The task list is
never longer than the request list (one task per recognized name), so this
index pairing is exactly `providers.zip completed`. -/
def syncResults (env : AdapterEnv) (now : Nat) (providers : List String) :
    ResultDict :=
  (providers.zip (((syncTasks providers).map (runPipeline env now)).map
      toProviderEntry)).foldl
    (fun d kv => dictInsert d kv.1 kv.2) []

/-- The orchestrator `sync_all_providers` (lines 24-96).  Defaults are
resolved first (window `[now-30, now]` days, providers
`['aws','azure','gcp']`); the dispatch loop and result gathering build the
`results` dict (`syncResults`); the total is the sum of
`records_processed` over the dict's values (line 84: every entry carries
the key, so `r.get('records_processed', 0)` is that field). -/
def syncAllProviders (env : AdapterEnv) (now : Nat)
    (start_date end_date : Option Nat) (providersOpt : Option (List String)) :
    SyncReport :=
  let providers := providersOpt.getD ["aws", "azure", "gcp"]
  let results := syncResults env now providers
  { status := "completed",
    total_records_processed := (results.map (fun kv => kv.2.records_processed)).sum,
    provider_results := results,
    sync_period := (start_date.getD (now - 30), end_date.getD now) }

/-- Whether the date keyword argument raises: a present, non-empty,
unparseable string does; a missing key or empty string substitutes the
clock instead.  This condition does not depend on the clock. -/
def dateFieldFails (v : Option String) : Bool :=
  match v with
  | none => false
  | some s => if s = "" then false else (fromisoformat s).isNone

/-- Value of a non-raising date keyword argument. -/
def dateFieldValue (v : Option String) (now : Nat) : Nat :=
  match v with
  | none => now
  | some s => if s = "" then now else (fromisoformat s).getD now

/-- Adapter environment in which all three fetches succeed with an empty
record list. -/
def envAllOk : AdapterEnv :=
  { aws := .ok [], azure := .ok [], gcp := .ok [] }

/-- Adapter environment in which the azure fetch raises `"boom"` on every
call while aws and gcp succeed. -/
def envAzureBoom : AdapterEnv :=
  { aws := .ok [], azure := .error "boom", gcp := .ok [] }

/-- Raw record carrying every field the normalizer reads, all present and
well-formed: dimensions with service, region and resource id, a numeric
cost, a currency code, a usage pair and two parseable ISO dates. -/
def goodItem : RawItem :=
  { dimensions := [("service", "EC2"), ("region", "us-east-1"),
                   ("resource_id", "i-123")],
    cost_amount := some (.num 5),
    cost_currency := some "USD",
    usage_quantity := some (.num 3),
    usage_unit := some "Hrs",
    start_date := some "2024-01-01",
    end_date := some "2024-01-02" }

/-- Raw record with every key absent. -/
def emptyItem : RawItem := {}

/-- Adapter environment in which the aws fetch returns two raw records and
the other fetches succeed with none. -/
def envAwsRaw : AdapterEnv :=
  { aws := .ok [goodItem, emptyItem], azure := .ok [], gcp := .ok [] }

/-! ### Lemmas about the results dict -/

lemma dictFind_append_self (d : ResultDict) (k : String) (v : ProviderEntry)
    (h : d.any (fun kv => kv.1 = k) = false) :
    dictFind (d ++ [(k, v)]) k = some v := by
  induction d with
  | nil => simp [dictFind]
  | cons kv rest ih =>
    simp only [List.any_cons, Bool.or_eq_false_iff, decide_eq_false_iff_not] at h
    simpa [dictFind, h.1] using ih h.2

lemma dictFind_map_replace (d : ResultDict) (k : String) (v : ProviderEntry)
    (h : d.any (fun kv => kv.1 = k) = true) :
    dictFind (d.map (fun kv => if kv.1 = k then (k, v) else kv)) k = some v := by
  induction d with
  | nil => simp at h
  | cons kv rest ih =>
    by_cases hk : kv.1 = k
    · simp [dictFind, hk]
    · simp only [List.any_cons, Bool.or_eq_true, decide_eq_true_eq] at h
      rcases h with h | h
      · exact absurd h hk
      · simpa [dictFind, hk] using ih h

lemma dictFind_dictInsert_self (d : ResultDict) (k : String) (v : ProviderEntry) :
    dictFind (dictInsert d k v) k = some v := by
  unfold dictInsert
  cases hA : d.any (fun kv => kv.1 = k) with
  | true => simpa [hA] using dictFind_map_replace d k v hA
  | false => simpa [hA] using dictFind_append_self d k v hA

lemma dictFind_map_replace_ne (d : ResultDict) (k : String) (v : ProviderEntry)
    (p : String) (hne : p ≠ k) :
    dictFind (d.map (fun kv => if kv.1 = k then (k, v) else kv)) p = dictFind d p := by
  induction d with
  | nil => rfl
  | cons kv rest ih =>
    by_cases hk : kv.1 = k
    · simp [dictFind, hk, Ne.symm hne, ih]
    · by_cases hp : kv.1 = p <;> simp [dictFind, hk, hp, hne, ih]

lemma dictFind_append_ne (d : ResultDict) (k : String) (v : ProviderEntry)
    (p : String) (hne : p ≠ k) :
    dictFind (d ++ [(k, v)]) p = dictFind d p := by
  induction d with
  | nil => simp [dictFind, Ne.symm hne]
  | cons kv rest ih =>
    by_cases hp : kv.1 = p <;> simp [dictFind, hp, ih]

lemma dictFind_dictInsert_ne (d : ResultDict) (k : String) (v : ProviderEntry)
    (p : String) (hne : p ≠ k) :
    dictFind (dictInsert d k v) p = dictFind d p := by
  unfold dictInsert
  cases hA : d.any (fun kv => kv.1 = k) with
  | true => simpa [hA] using dictFind_map_replace_ne d k v p hne
  | false => simpa [hA] using dictFind_append_ne d k v p hne

lemma dictFind_foldl_insert_of_notmem (l : List (String × ProviderEntry))
    (p : String) (h : ∀ kv ∈ l, kv.1 ≠ p) :
    ∀ d : ResultDict,
      dictFind (l.foldl (fun acc kv => dictInsert acc kv.1 kv.2) d) p = dictFind d p := by
  induction l with
  | nil => intro d; rfl
  | cons kv rest ih =>
    intro d
    rw [List.foldl_cons,
      ih (fun x hx => h x (List.mem_cons_of_mem _ hx)) (dictInsert d kv.1 kv.2)]
    exact dictFind_dictInsert_ne d kv.1 kv.2 p
      (fun hc => h kv (List.mem_cons_self _ _) hc.symm)

lemma dictFind_foldl_insert_map (f : String → ProviderEntry) :
    ∀ (ps : List String) (d : ResultDict) (p : String), p ∈ ps →
      dictFind ((ps.map (fun q => (q, f q))).foldl
          (fun acc kv => dictInsert acc kv.1 kv.2) d) p
        = some (f p) := by
  intro ps
  induction ps with
  | nil => intro d p hp; cases hp
  | cons q rest ih =>
    intro d p hp
    rw [List.map_cons, List.foldl_cons]
    by_cases hmem : p ∈ rest
    · exact ih (dictInsert d q (f q)) p hmem
    · have hpq : p = q := by
        rcases List.mem_cons.mp hp with h | h
        · exact h
        · exact absurd h hmem
      subst hpq
      rw [dictFind_foldl_insert_of_notmem _ p ?keys (dictInsert d p (f p))]
      · exact dictFind_dictInsert_self d p (f p)
      case keys =>
        intro kv hkv
        rcases List.mem_map.mp hkv with ⟨r, hr, rfl⟩
        intro hc
        exact hmem (hc ▸ hr)

/-! ### Lemmas about the orchestrator -/

/-- When every requested name is recognized, pairing the request list with
the gathered outcomes pairs each name with the outcome of its own
pipeline. -/
lemma zip_tasks_align (env : AdapterEnv) (now : Nat) :
    ∀ ps : List String, (∀ p ∈ ps, (recognizeProvider p).isSome) →
      ps.zip (((syncTasks ps).map (runPipeline env now)).map toProviderEntry)
        = ps.map (fun p =>
            (p, toProviderEntry (runPipeline env now
                  ((recognizeProvider p).getD .aws)))) := by
  intro ps
  induction ps with
  | nil => intro _; rfl
  | cons p rest ih =>
    intro h
    obtain ⟨t, ht⟩ := Option.isSome_iff_exists.mp (h p (List.mem_cons_self _ _))
    have hrest := fun q hq => h q (List.mem_cons_of_mem _ hq)
    simp only [syncTasks, List.filterMap_cons, ht, List.map_cons,
      List.zip_cons_cons, List.cons.injEq]
    refine ⟨rfl, ?_⟩
    simpa [syncTasks] using ih hrest

/-- Unfolding of the report's results field. -/
lemma sync_provider_results (env : AdapterEnv) (now : Nat)
    (sd ed : Option Nat) (ps : List String) :
    (syncAllProviders env now sd ed (some ps)).provider_results
      = syncResults env now ps := rfl

/-- When every requested name is recognized, each requested name is a key
of the results dict and holds the outcome of its own pipeline (also in the
presence of duplicate names: every occurrence of one name runs the same
pipeline). -/
lemma dictFind_syncResults (env : AdapterEnv) (now : Nat) (ps : List String)
    (hrec : ∀ p ∈ ps, (recognizeProvider p).isSome)
    (p : String) (hp : p ∈ ps) (t : ProviderTag)
    (ht : recognizeProvider p = some t) :
    dictFind (syncResults env now ps) p
      = some (toProviderEntry (runPipeline env now t)) := by
  unfold syncResults
  rw [zip_tasks_align env now ps hrec]
  rw [dictFind_foldl_insert_map
    (fun q => toProviderEntry (runPipeline env now ((recognizeProvider q).getD .aws)))
    ps [] p hp]
  rw [ht]
  rfl

/-- When every requested name is recognized, one task is built per
occurrence of a name in the request list. -/
lemma syncTasks_length (ps : List String)
    (hrec : ∀ p ∈ ps, (recognizeProvider p).isSome) :
    (syncTasks ps).length = ps.length := by
  induction ps with
  | nil => rfl
  | cons p rest ih =>
    obtain ⟨t, ht⟩ := Option.isSome_iff_exists.mp (hrec p (List.mem_cons_self _ _))
    have hrest := fun q hq => hrec q (List.mem_cons_of_mem _ hq)
    simpa [syncTasks, List.filterMap_cons, ht] using ih hrest

/-- Python dict assignment never duplicates a key. -/
lemma dictInsert_keys_nodup (d : ResultDict) (k : String) (v : ProviderEntry)
    (h : (d.map Prod.fst).Nodup) :
    ((dictInsert d k v).map Prod.fst).Nodup := by
  unfold dictInsert
  cases hA : d.any (fun kv => kv.1 = k) with
  | true =>
    have hkeys : (d.map (fun kv => if kv.1 = k then (k, v) else kv)).map Prod.fst
        = d.map Prod.fst := by
      rw [List.map_map]
      refine List.map_congr_left ?_
      intro kv _
      by_cases hk : kv.1 = k <;> simp [hk]
    simpa [hA, hkeys] using h
  | false =>
    rw [if_neg (by simp [hA]), List.map_append]
    refine List.Nodup.append h (List.nodup_singleton k) ?_
    intro a ha hb
    rcases List.mem_map.mp ha with ⟨kv, hkv, rfl⟩
    rcases List.mem_singleton.mp hb with rfl
    have h2 := List.any_eq_false.mp hA kv hkv
    simp at h2

/-- Keys of a dict built by repeated assignment are distinct. -/
lemma foldl_insert_keys_nodup (l : List (String × ProviderEntry)) :
    ∀ d : ResultDict, (d.map Prod.fst).Nodup →
      (((l.foldl (fun acc kv => dictInsert acc kv.1 kv.2) d)).map Prod.fst).Nodup := by
  induction l with
  | nil => intro d h; exact h
  | cons kv rest ih =>
    intro d h
    rw [List.foldl_cons]
    exact ih (dictInsert d kv.1 kv.2) (dictInsert_keys_nodup d kv.1 kv.2 h)

/-- The results dict of any sync cycle has pairwise-distinct keys. -/
lemma syncResults_keys_nodup (env : AdapterEnv) (now : Nat) (ps : List String) :
    ((syncResults env now ps).map Prod.fst).Nodup := by
  unfold syncResults
  exact foldl_insert_keys_nodup _ [] List.nodup_nil

/-! ### Lemmas about the per-record loop -/

/-- The per-item loop counts exactly the records that normalize: its total
is the number of raw records minus the number of failing ones. -/
lemma processAndStore_eq_length_sub_failures (raw : List RawItem)
    (p : String) (now : Nat) :
    processAndStoreCostData raw p now
      = raw.length
        - (raw.filter (fun i => !(exOk (processCostItem p i now)))).length := by
  induction raw with
  | nil => rfl
  | cons item rest ih =>
    have hle := List.length_filter_le
      (fun i => !(exOk (processCostItem p i now))) rest
    cases hP : exOk (processCostItem p item now) with
    | false =>
      simp [processAndStoreCostData, hP, List.filter_cons, ih]
    | true =>
      simp [processAndStoreCostData, hP, List.filter_cons, ih]
      omega

/-- The per-item loop is compositional: records are processed one by one,
so the count over a concatenation is the sum of the counts. -/
lemma processAndStore_append (xs ys : List RawItem) (p : String) (now : Nat) :
    processAndStoreCostData (xs ++ ys) p now
      = processAndStoreCostData xs p now + processAndStoreCostData ys p now := by
  induction xs with
  | nil => simp [processAndStoreCostData]
  | cons item rest ih =>
    simp only [List.cons_append, processAndStoreCostData, List.append_eq] at ih ⊢
    omega

/-- The date keyword arguments evaluate to an error exactly when the field
holds a non-empty unparseable string, a condition independent of the
clock; otherwise they evaluate to a value. -/
lemma evalDateField_eq (v : Option String) (now : Nat) :
    evalDateField v now
      = if dateFieldFails v then .error "ValueError: Invalid isoformat string"
        else .ok (dateFieldValue v now) := by
  cases v with
  | none => rfl
  | some s =>
    by_cases hs : s = ""
    · simp [evalDateField, dateFieldFails, dateFieldValue, hs]
    · cases hF : fromisoformat s <;>
        simp [evalDateField, dateFieldFails, dateFieldValue, hs, hF]

/-! ### Claim theorems -/

/-- C1.  The claim states that for every requested provider list the
report's per-provider results are keyed by exactly the recognized members
of the list, unrecognized names producing no entry.  The code violates
this: the gathered task outcomes are re-indexed against the unfiltered
request list (`provider = providers[i]` at line 73 after unrecognized
names were dropped from `tasks`), so for the request `["foo", "aws"]` the
single aws pipeline outcome is filed under the unrecognized name `"foo"`
and the recognized name `"aws"` gets no entry at all. -/
theorem c1_unrecognized_name_steals_entry :
    ((syncAllProviders envAllOk 0 none none
        (some ["foo", "aws"])).provider_results.map Prod.fst) = ["foo"]
    ∧ dictFind (syncAllProviders envAllOk 0 none none
        (some ["foo", "aws"])).provider_results "aws" = none
    ∧ dictFind (syncAllProviders envAllOk 0 none none
        (some ["foo", "aws"])).provider_results "foo"
      = some { status := "success", records_processed := 0,
               provider := some "aws" } :=
  ⟨rfl, rfl, rfl⟩

/-- C2.  For every sync invocation — any adapter outcomes, any requested
list (explicit or defaulted), any outcome mix — the reported
`total_records_processed` equals the sum of `records_processed` over the
entries of the per-provider results, exactly as the code computes it at
line 84. -/
theorem c2_total_is_sum_over_entries (env : AdapterEnv) (now : Nat)
    (sd ed : Option Nat) (psOpt : Option (List String)) :
    (syncAllProviders env now sd ed psOpt).total_records_processed
      = ((syncAllProviders env now sd ed psOpt).provider_results.map
          (fun kv => kv.2.records_processed)).sum := rfl

/-- C3.  If one provider's adapter raises on every call while the other
recognized, requested providers' adapters succeed, the sync still returns
a completed report in which every other requested provider is reported
with status `success`, and the failing provider's entry is exactly
`{status: error, records_processed: 0, error: <message>}`; the failure
never escapes `sync_all_providers` (a total function on this embedding). -/
theorem c3_one_failing_adapter_is_isolated (env : AdapterEnv) (now : Nat)
    (sd ed : Option Nat) (ps : List String) (t0 : ProviderTag) (msg : String)
    (hrec : ∀ p ∈ ps, (recognizeProvider p).isSome)
    (hfail : env.fetch t0 = .error msg)
    (hok : ∀ t, t ≠ t0 → exOk (env.fetch t) = true) :
    (syncAllProviders env now sd ed (some ps)).status = "completed"
    ∧ ∀ p ∈ ps, ∀ t, recognizeProvider p = some t →
        ∃ e, dictFind (syncAllProviders env now sd ed (some ps)).provider_results p
              = some e
          ∧ (t = t0 → e = { status := "error", records_processed := 0,
                            provider := none, error := some msg })
          ∧ (t ≠ t0 → e.status = "success") := by
  refine ⟨rfl, ?_⟩
  intro p hp t ht
  refine ⟨toProviderEntry (runPipeline env now t), ?_, ?_, ?_⟩
  · rw [sync_provider_results]
    exact dictFind_syncResults env now ps hrec p hp t ht
  · intro h0
    subst h0
    simp [runPipeline, hfail, toProviderEntry]
  · intro hne
    have hOk := hok t hne
    cases hE : env.fetch t with
    | error e => rw [hE] at hOk; simp [exOk] at hOk
    | ok raw => simp [runPipeline, hE, toProviderEntry]

/-- Witness for C3 at a concrete instance: azure's adapter raises
`"boom"` on every call, aws and gcp succeed; all three are requested. -/
theorem c3_one_failing_adapter_is_isolated_witness :
    (syncAllProviders envAzureBoom 0 none none
        (some ["aws", "azure", "gcp"])).status = "completed"
    ∧ ∀ p ∈ ["aws", "azure", "gcp"], ∀ t, recognizeProvider p = some t →
        ∃ e, dictFind (syncAllProviders envAzureBoom 0 none none
              (some ["aws", "azure", "gcp"])).provider_results p = some e
          ∧ (t = ProviderTag.azure →
              e = { status := "error", records_processed := 0,
                    provider := none, error := some "boom" })
          ∧ (t ≠ ProviderTag.azure → e.status = "success") :=
  c3_one_failing_adapter_is_isolated envAzureBoom 0 none none
    ["aws", "azure", "gcp"] .azure "boom" (by decide) rfl (by decide)

/-- C4.  A pipeline whose adapter returns `N` raw records of which `K`
fail normalization reports `records_processed = N - K` with status
`success`: each failing record is skipped individually (the count over a
list with a failing record spliced in is the sum of the counts of the
surrounding segments), and record failures never change the pipeline's
status from `success`. -/
theorem c4_records_processed_n_minus_k (env : AdapterEnv) (now : Nat)
    (t : ProviderTag) (raw : List RawItem) (h : env.fetch t = .ok raw) :
    runPipeline env now t
      = .ok { status := "success",
              records_processed := raw.length
                - (raw.filter
                    (fun i => !(exOk (processCostItem t.name i now)))).length,
              provider := t.name }
    ∧ ∀ (xs ys : List RawItem) (bad : RawItem),
        exOk (processCostItem t.name bad now) = false →
        processAndStoreCostData (xs ++ bad :: ys) t.name now
          = processAndStoreCostData xs t.name now
            + processAndStoreCostData ys t.name now := by
  constructor
  · simp only [runPipeline, h]
    rw [processAndStore_eq_length_sub_failures]
  · intro xs ys bad hbad
    rw [processAndStore_append]
    simp [processAndStoreCostData, hbad]

/-- Witness for C4: the aws adapter returns two records, both of which
fail normalization, so the pipeline reports `2 - 2 = 0` processed records
with status `success`; splicing the failing record between segments adds
nothing to the count. -/
theorem c4_records_processed_n_minus_k_witness :
    runPipeline envAwsRaw 0 .aws
      = .ok { status := "success", records_processed := 0, provider := "aws" }
    ∧ processAndStoreCostData ([goodItem] ++ emptyItem :: []) "aws" 0
        = processAndStoreCostData [goodItem] "aws" 0
          + processAndStoreCostData [] "aws" 0 :=
  ⟨((c4_records_processed_n_minus_k envAwsRaw 0 .aws [goodItem, emptyItem]
      rfl).1).trans (by decide),
   (c4_records_processed_n_minus_k envAwsRaw 0 .aws [goodItem, emptyItem]
      rfl).2 [goodItem] [] emptyItem rfl⟩

/-- C5.  The claim states that normalization fails only when
`cost_amount` is absent or non-numeric.  The code violates it: the
`CostDataCreate` schema requires `resource_type` and `timestamp`
(`Field(...)` in `schemas/cost.py`), neither of which the constructor
call at lines 208-224 passes, so even a raw record carrying every field
the normalizer reads — numeric cost, currency, dimensions, usage, parseable
dates — fails validation (and a missing `cost_currency` would already
raise `KeyError` at line 214, contradicting the claimed default). -/
theorem c5_fully_populated_record_fails_normalization (now : Nat) :
    exOk (processCostItem "aws" goodItem now) = false
    ∧ processCostItem "aws" goodItem now
        = .error "ValidationError: resource_type: field required" :=
  ⟨rfl, rfl⟩

/-- C6.  The top-level `status` of the report is the literal
`"completed"` for every environment, clock, window and requested list —
including ones where every provider failed. -/
theorem c6_overall_status_always_completed (env : AdapterEnv) (now : Nat)
    (sd ed : Option Nat) (psOpt : Option (List String)) :
    (syncAllProviders env now sd ed psOpt).status = "completed" := rfl

/-- C7.  Requesting an empty provider list returns normally with an empty
per-provider results dict and a zero total. -/
theorem c7_empty_provider_list (env : AdapterEnv) (now : Nat)
    (sd ed : Option Nat) :
    (syncAllProviders env now sd ed (some [])).provider_results = []
    ∧ (syncAllProviders env now sd ed (some [])).total_records_processed = 0 :=
  ⟨rfl, rfl⟩

/-- C8.  The normalization step is insensitive to the clock reading: for
a fixed raw record and provider tag, runs at any two times produce equal
outcomes.  This holds degenerately — no record ever normalizes (C5), and
the failure produced does not depend on the clock: the clock only feeds
the `start_date`/`end_date`/`metadata` keyword arguments, whose values
the schema drops, and date-parse failure is decided by the raw string
alone. -/
theorem c8_normalization_clock_independent (item : RawItem) (p : String)
    (t1 t2 : Nat) :
    processCostItem p item t1 = processCostItem p item t2 := by
  unfold processCostItem
  cases item.cost_amount with
  | none => rfl
  | some ca =>
    cases item.cost_currency with
    | none => rfl
    | some cc =>
      rw [evalDateField_eq item.start_date t1, evalDateField_eq item.start_date t2,
        evalDateField_eq item.end_date t1, evalDateField_eq item.end_date t2]
      cases dateFieldFails item.start_date <;>
        cases dateFieldFails item.end_date <;> rfl

/-- Counterexample to C9 as stated: for the request `["foo", "AWS"]` the
pipeline for aws is launched (its outcome even appears in the report), but
it is keyed by the unrecognized name `"foo"`; no key preserves the
caller's spelling `"AWS"`. -/
theorem c9_counterexample_key_not_preserved :
    dictFind (syncAllProviders envAllOk 0 none none
        (some ["foo", "AWS"])).provider_results "AWS" = none
    ∧ dictFind (syncAllProviders envAllOk 0 none none
        (some ["foo", "AWS"])).provider_results "foo"
      = some { status := "success", records_processed := 0,
               provider := some "aws" } :=
  ⟨rfl, rfl⟩

/-- C9 (amended).  A requested name whose lowercasing is `aws`, `azure`
or `gcp` always launches that provider's pipeline; and provided every
name in the requested list is recognized, the pipeline's outcome appears
in the report under the caller's original spelling of the name. -/
theorem c9_case_insensitive_match_preserves_spelling (env : AdapterEnv)
    (now : Nat) (sd ed : Option Nat) (ps : List String) (p : String)
    (t : ProviderTag) (hp : p ∈ ps) (ht : recognizeProvider p = some t) :
    t ∈ syncTasks ps
    ∧ ((∀ q ∈ ps, (recognizeProvider q).isSome) →
        dictFind (syncAllProviders env now sd ed (some ps)).provider_results p
          = some (toProviderEntry (runPipeline env now t))) := by
  constructor
  · exact List.mem_filterMap.mpr ⟨p, hp, ht⟩
  · intro hrec
    rw [sync_provider_results]
    exact dictFind_syncResults env now ps hrec p hp t ht

/-- Witness for C9 (amended) at the mixed-case request `["Azure"]`: the
azure pipeline is launched and its outcome is keyed by the original
spelling `"Azure"`. -/
theorem c9_case_insensitive_match_preserves_spelling_witness :
    ProviderTag.azure ∈ syncTasks ["Azure"]
    ∧ dictFind (syncAllProviders envAllOk 0 none none
        (some ["Azure"])).provider_results "Azure"
      = some (toProviderEntry (runPipeline envAllOk 0 .azure)) :=
  ⟨(c9_case_insensitive_match_preserves_spelling envAllOk 0 none none
      ["Azure"] "Azure" .azure (by decide) (by decide)).1,
   (c9_case_insensitive_match_preserves_spelling envAllOk 0 none none
      ["Azure"] "Azure" .azure (by decide) (by decide)).2 (by decide)⟩

/-- Counterexample to C10 as stated: in the request
`["aws", "foo", "aws", "azure"]` the name `aws` appears twice and both
aws pipelines succeed, yet the retained `aws` entry is not a later aws
occurrence's outcome — the re-indexing bug files the azure pipeline's
error there (and azure's own spelling gets no entry). -/
theorem c10_counterexample_overwritten_by_other_provider :
    runPipeline envAzureBoom 0 .aws
      = .ok { status := "success", records_processed := 0, provider := "aws" }
    ∧ dictFind (syncAllProviders envAzureBoom 0 none none
        (some ["aws", "foo", "aws", "azure"])).provider_results "aws"
      = some { status := "error", records_processed := 0,
               error := some "boom" } :=
  ⟨rfl, rfl⟩

/-- C10 (amended).  For a requested list in which every name is
recognized: one pipeline is launched per occurrence (tasks are as long as
the request list), the results dict keeps exactly one entry per distinct
name (its keys are pairwise distinct), that entry is the outcome of the
name's own pipeline (all occurrences of one name run the same pipeline,
so the overwrites at line 82 are value-preserving), and the reported
total sums the retained entries only. -/
theorem c10_duplicate_names_keep_one_entry (env : AdapterEnv) (now : Nat)
    (sd ed : Option Nat) (ps : List String)
    (hrec : ∀ q ∈ ps, (recognizeProvider q).isSome)
    (p : String) (hp : p ∈ ps) (t : ProviderTag)
    (ht : recognizeProvider p = some t) :
    (syncTasks ps).length = ps.length
    ∧ ((syncAllProviders env now sd ed (some ps)).provider_results.map
        Prod.fst).Nodup
    ∧ dictFind (syncAllProviders env now sd ed (some ps)).provider_results p
        = some (toProviderEntry (runPipeline env now t))
    ∧ (syncAllProviders env now sd ed (some ps)).total_records_processed
        = ((syncAllProviders env now sd ed (some ps)).provider_results.map
            (fun kv => kv.2.records_processed)).sum := by
  refine ⟨syncTasks_length ps hrec, ?_, ?_, rfl⟩
  · rw [sync_provider_results]
    exact syncResults_keys_nodup env now ps
  · rw [sync_provider_results]
    exact dictFind_syncResults env now ps hrec p hp t ht

/-- Witness for C10 (amended) at the duplicated request `["aws", "aws"]`:
two pipelines are launched, one entry keyed `"aws"` is retained holding
the aws pipeline's outcome, and the total sums that single entry. -/
theorem c10_duplicate_names_keep_one_entry_witness :
    (syncTasks ["aws", "aws"]).length = (["aws", "aws"] : List String).length
    ∧ ((syncAllProviders envAllOk 0 none none
        (some ["aws", "aws"])).provider_results.map Prod.fst).Nodup
    ∧ dictFind (syncAllProviders envAllOk 0 none none
        (some ["aws", "aws"])).provider_results "aws"
        = some (toProviderEntry (runPipeline envAllOk 0 .aws))
    ∧ (syncAllProviders envAllOk 0 none none
        (some ["aws", "aws"])).total_records_processed
        = ((syncAllProviders envAllOk 0 none none
            (some ["aws", "aws"])).provider_results.map
            (fun kv => kv.2.records_processed)).sum :=
  c10_duplicate_names_keep_one_entry envAllOk 0 none none ["aws", "aws"]
    (by decide) "aws" (by decide) .aws (by decide)

end CloudCost
